import Mathlib

/-!
Verification of the ingestion orchestration and watermark/run-tracking
subsystem of the yahoo_finance_analysis_pipeline repository.

The Python sources embedded here are:
  - src/load/snowflake_loader.py  (SnowflakeLoader: load_to_raw,
    _log_ingest_run, update_watermark, get_watermark)
  - dags/finance_pipeline_dag.py  (the task callables, the quality gate
    verify_data_quality, and the Airflow DAG wiring)

Pandas DataFrames are modelled as a list of column descriptors plus a
list of rows; the Snowflake warehouse, the METADATA.INGEST_RUNS ledger
and the METADATA.WATERMARKS table are explicit state.  External failure
sources (the warehouse write, the metadata inserts, the watermark
queries) are modelled as explicit outcome parameters and failure flags,
since the corresponding Python calls go to an external system.
-/

/-- Column dtypes that matter to the loader: pandas datetime64 columns
(carrying a time of day), plain calendar dates (what `.dt.date`
produces), strings and numbers. -/
inductive Dtype
  | datetime
  | date
  | str
  | num
deriving DecidableEq, Repr

/-- A single cell value.  `dt day tod` is a datetime (day number plus a
time-of-day component), `d day` a calendar date, `s` a string, `n` a
number. -/
inductive Cell
  | dt (day : Int) (tod : Nat)
  | d (day : Int)
  | s (v : String)
  | n (v : Int)
deriving DecidableEq, Repr

/-- Name and dtype of one DataFrame column. -/
structure ColMeta where
  name : String
  dtype : Dtype
deriving DecidableEq, Repr

instance : Inhabited ColMeta := ⟨⟨"", Dtype.str⟩⟩

/-- A pandas DataFrame: column descriptors plus rows of cells.  A
well-formed frame has every row of length `cols.length` with cells
matching the column dtypes (`DataFrame.wf`). -/
structure DataFrame where
  cols : List ColMeta
  rows : List (List Cell)
deriving DecidableEq, Repr

/-- `df.empty` in pandas: true when either axis has length zero. -/
def DataFrame.isEmpty (df : DataFrame) : Bool :=
  df.rows.isEmpty || df.cols.isEmpty

/-- Does a cell match a column dtype? -/
def Cell.hasType : Cell → Dtype → Bool
  | .dt _ _, .datetime => true
  | .d _, .date => true
  | .s _, .str => true
  | .n _, .num => true
  | _, _ => false

/-- Well-formedness: every row has one cell per column, with the dtype
of that column. -/
def DataFrame.wf (df : DataFrame) : Bool :=
  df.rows.all fun r =>
    r.length == df.cols.length &&
    (List.zipWith Cell.hasType r (df.cols.map ColMeta.dtype)).all id

/-- Characters of a string, lower-cased (`col.lower()`). -/
def lowerChars (s : String) : List Char :=
  s.data.map Char.toLower

/-- Does the character sequence contain "date" as a contiguous
substring? -/
def hasDateSub : List Char → Bool
  | 'd' :: 'a' :: 't' :: 'e' :: _ => true
  | _ :: rest => hasDateSub rest
  | [] => false

/-- The column-name test on line 122 of snowflake_loader.py:
`col.lower() == "date" or "date" in col.lower()`. -/
def nameHasDate (name : String) : Bool :=
  lowerChars name == "date".data || hasDateSub (lowerChars name)

/-- `.dt.date` on a single cell: strip the time-of-day from a datetime;
leave every other cell unchanged. -/
def stripCell : Cell → Cell
  | .dt day _ => .d day
  | c => c

/-- Lines 121-124 of snowflake_loader.py: for every column whose name
contains "date" and whose dtype is datetime, convert the column to
calendar dates (`df[col] = df[col].dt.date`). -/
def normalizeDates (df : DataFrame) : DataFrame :=
  let flags := df.cols.map fun c => nameHasDate c.name && c.dtype == Dtype.datetime
  { cols := df.cols.map fun c =>
      if nameHasDate c.name && c.dtype == Dtype.datetime then ⟨c.name, Dtype.date⟩ else c,
    rows := df.rows.map fun r =>
      List.zipWith (fun cell fl => if fl then stripCell cell else cell) r flags }

/-- Line 127 of snowflake_loader.py: `df["source_run_id"] = run_id`.
Pandas assigns into an existing column of that name, otherwise appends a
new one, broadcasting the scalar to every row. -/
def stampRunId (df : DataFrame) (run_id : String) : DataFrame :=
  match df.cols.findIdx? (fun c => c.name == "source_run_id") with
  | some j =>
      { cols := df.cols.set j ⟨"source_run_id", Dtype.str⟩,
        rows := df.rows.map fun r => r.set j (Cell.s run_id) }
  | none =>
      { cols := df.cols ++ [⟨"source_run_id", Dtype.str⟩],
        rows := df.rows.map fun r => r ++ [Cell.s run_id] }

/-- Order on cells used to model `df[col].max()` over a homogeneous
date / datetime / numeric column: compare by (day, time-of-day). -/
def Cell.timeKey : Cell → Int × Nat
  | .dt day t => (day, t)
  | .d day => (day, 0)
  | .n v => (v, 0)
  | .s _ => (0, 0)

def Cell.leB (a b : Cell) : Bool :=
  a.timeKey.1 < b.timeKey.1 || (a.timeKey.1 == b.timeKey.1 && a.timeKey.2 ≤ b.timeKey.2)

def maxCell : List Cell → Option Cell
  | [] => none
  | c :: cs => some (cs.foldl (fun m x => if Cell.leB m x then x else m) c)

/-- The cells of the column named `name`, when it exists. -/
def DataFrame.colValues (df : DataFrame) (name : String) : Option (List Cell) :=
  (df.cols.findIdx? (fun c => c.name == name)).map fun j =>
    df.rows.map fun r => r.getD j (Cell.s "")

/-- `df[name].max()`. -/
def DataFrame.colMax (df : DataFrame) (name : String) : Option Cell :=
  (df.colValues name).bind maxCell

/-- Python `str()` applied to a cell (an injective rendering; the exact
format is irrelevant, only that the stored watermark is the string form
of the value). -/
def Cell.toStr : Cell → String
  | .dt day t => "dt(" ++ toString day ++ "," ++ toString t ++ ")"
  | .d day => "d(" ++ toString day ++ ")"
  | .s v => v
  | .n v => toString v

/-! ## Loader state: warehouse, run ledger, watermark store -/

/-- One row of METADATA.INGEST_RUNS (see _log_ingest_run, lines
188-203 of snowflake_loader.py).  `run_timestamp` is a logical clock
tick standing for `datetime.now()`. -/
structure RunRecord where
  run_id : String
  dataset_name : String
  table_name : String
  run_timestamp : Nat
  records_loaded : Nat
  status : String
  error_message : Option String
deriving DecidableEq, Repr

/-- The externally visible state a SnowflakeLoader acts on: the RAW
schema tables (name to stored rows), the ingest-run ledger, the
watermark table, a counter backing the run-id generator, a logical
clock, and failure flags for the three metadata operations whose
exceptions the Python code catches (the ledger INSERT, the watermark
MERGE, the watermark SELECT). -/
structure LoaderState where
  warehouse : List (String × List (List Cell))
  ledger : List RunRecord
  watermarks : List (String × String)
  nextRunId : Nat
  clock : Nat
  ledgerFails : Bool
  wmWriteFails : Bool
  wmReadFails : Bool
deriving DecidableEq, Repr

/-- Modelled from the spec: `generate_run_id` comes from
src/common/state_store.py, which is not part of the provided sources;
the Run Identifier Generator of the spec "produces a unique token
identifying one extraction-and-load attempt", modelled as a counter
rendered to a string. -/
def generate_run_id (n : Nat) : String :=
  "run_" ++ toString n

/-- Upsert into an association list keyed by the first component
(models MERGE ... WHEN MATCHED UPDATE / WHEN NOT MATCHED INSERT on a
primary-key column). -/
def upsertA {α : Type} : List (String × α) → String → α → List (String × α)
  | [], k, v => [(k, v)]
  | (k1, v1) :: rest, k, v =>
      if k1 == k then (k, v) :: rest else (k1, v1) :: upsertA rest k v

/-- SnowflakeLoader._log_ingest_run (lines 177-208): INSERT one row
into METADATA.INGEST_RUNS; any exception is caught and only logged as
a warning, leaving the state unchanged. -/
def log_ingest_run (st : LoaderState) (run_id dataset_name table_name : String)
    (records_loaded : Nat) (status : String) (error_message : Option String) : LoaderState :=
  if st.ledgerFails then st
  else
    { st with
      ledger := st.ledger ++
        [⟨run_id, dataset_name, table_name, st.clock, records_loaded, status, error_message⟩],
      clock := st.clock + 1 }

/-- SnowflakeLoader.update_watermark (lines 210-230): MERGE into
METADATA.WATERMARKS keyed by dataset_name, storing
`str(watermark_value)`; any exception is caught and only logged. -/
def update_watermark (st : LoaderState) (dataset_name : String)
    (watermark_value : String) : LoaderState :=
  if st.wmWriteFails then st
  else
    { st with
      watermarks := upsertA st.watermarks dataset_name watermark_value,
      clock := st.clock + 1 }

/-- SnowflakeLoader.get_watermark (lines 232-249): SELECT the stored
value; returns None when no row matches, and also returns None (never
raises) when the query itself fails. -/
def get_watermark (st : LoaderState) (dataset_name : String) : Option String :=
  if st.wmReadFails then none
  else List.lookup dataset_name st.watermarks

/-- Possible behaviours of the external warehouse write
(snowflake.connector.pandas_tools.write_pandas): it can succeed, return
`success=False` with diagnostic output, or raise. -/
inductive WriteOutcome
  | ok
  | failFalse (output : String)
  | failRaise (msg : String)
deriving DecidableEq, Repr

/-- write_pandas as called on lines 133-142: append the rows of `df` to the
target table (`overwrite=False`), creating the table only when
`auto_create_table` is set; returns (success, num_chunks, num_rows,
output) or raises.  The warehouse is only changed on the success
path. -/
def write_pandas (wh : List (String × List (List Cell))) (df : DataFrame)
    (table_name : String) (auto_create_table : Bool) (outcome : WriteOutcome) :
    Except String (Bool × Nat × Nat × String × List (String × List (List Cell))) :=
  match outcome with
  | .failRaise msg => .error msg
  | .failFalse output => .ok (false, 0, 0, output, wh)
  | .ok =>
      match List.lookup table_name wh with
      | some rows => .ok (true, 1, df.rows.length, "",
          upsertA wh table_name (rows ++ df.rows))
      | none =>
          if auto_create_table then
            .ok (true, 1, df.rows.length, "", wh ++ [(table_name, df.rows)])
          else
            .error ("Table " ++ table_name ++ " does not exist")

/-- The dictionary load_to_raw returns: lines 110-112 for the empty
case (no run_id, no chunks), lines 156-161 on success. -/
structure LoadResult where
  run_id : Option String
  records_loaded : Nat
  status : String
  chunks : Option Nat
deriving DecidableEq, Repr

/-- SnowflakeLoader.load_to_raw (lines 91-175).  An empty frame returns
the skipped result at once.  Otherwise: draw a fresh run id, copy the
frame, normalize date columns, stamp the run id, call write_pandas;
on success log a completed run and return the statistics; on
`success=False` raise "Load failed: output"; any raised error is logged
as a failed run and then re-raised (modelled as the Except error). -/
def load_to_raw (st : LoaderState) (df : DataFrame) (table_name dataset_name : String)
    (create_table : Bool) (outcome : WriteOutcome) :
    Except String LoadResult × LoaderState :=
  if df.isEmpty then (.ok ⟨none, 0, "skipped", none⟩, st)
  else
    let run_id := generate_run_id st.nextRunId
    let st1 : LoaderState := { st with nextRunId := st.nextRunId + 1 }
    let df1 := stampRunId (normalizeDates df) run_id
    match write_pandas st1.warehouse df1 table_name create_table outcome with
    | .ok (success, num_chunks, num_rows, output, wh1) =>
        if success then
          let st2 := log_ingest_run { st1 with warehouse := wh1 }
            run_id dataset_name table_name num_rows "completed" none
          (.ok ⟨some run_id, num_rows, "completed", some num_chunks⟩, st2)
        else
          let msg := "Load failed: " ++ output
          (.error msg,
           log_ingest_run st1 run_id dataset_name table_name 0 "failed" (some msg))
    | .error msg =>
        (.error msg,
         log_ingest_run st1 run_id dataset_name table_name 0 "failed" (some msg))

/-! ## Reference-level view of the frame preparation (for the
no-mutation property).  Python DataFrames are mutable objects passed by
reference; the heap is a list of frames and a reference is an index. -/

def emptyDf : DataFrame := ⟨[], []⟩

/-- Lines 117-127 of snowflake_loader.py with Python object semantics
made explicit: `df = df.copy()` allocates a fresh frame at the end of
the heap and rebinds the local name to it; the date loop and the
run-id assignment then mutate that fresh frame in place.  Returns the
new heap and the reference the local `df` ends up bound to. -/
def load_prepare_heap (heap : List DataFrame) (ref : Nat) (run_id : String) :
    List DataFrame × Nat :=
  let df := heap.getD ref emptyDf
  let heap1 := heap ++ [df]
  let ref2 := heap.length
  let heap2 := heap1.set ref2 (normalizeDates (heap1.getD ref2 emptyDf))
  let heap3 := heap2.set ref2 (stampRunId (heap2.getD ref2 emptyDf) run_id)
  (heap3, ref2)

/-- load_to_raw with the frame of the caller held on the heap: identical
control flow to `load_to_raw`, with the copy/mutate steps routed
through `load_prepare_heap`. -/
def load_to_raw_heap (st : LoaderState) (heap : List DataFrame) (ref : Nat)
    (table_name dataset_name : String) (create_table : Bool) (outcome : WriteOutcome) :
    (Except String LoadResult × LoaderState) × List DataFrame :=
  let df0 := heap.getD ref emptyDf
  if df0.isEmpty then ((.ok ⟨none, 0, "skipped", none⟩, st), heap)
  else
    let run_id := generate_run_id st.nextRunId
    let st1 : LoaderState := { st with nextRunId := st.nextRunId + 1 }
    let hp := load_prepare_heap heap ref run_id
    let df1 := hp.1.getD hp.2 emptyDf
    match write_pandas st1.warehouse df1 table_name create_table outcome with
    | .ok (success, num_chunks, num_rows, output, wh1) =>
        if success then
          let st2 := log_ingest_run { st1 with warehouse := wh1 }
            run_id dataset_name table_name num_rows "completed" none
          ((.ok ⟨some run_id, num_rows, "completed", some num_chunks⟩, st2), hp.1)
        else
          let msg := "Load failed: " ++ output
          ((.error msg,
            log_ingest_run st1 run_id dataset_name table_name 0 "failed" (some msg)), hp.1)
    | .error msg =>
        ((.error msg,
          log_ingest_run st1 run_id dataset_name table_name 0 "failed" (some msg)), hp.1)

/-! ## The DAG task callables (dags/finance_pipeline_dag.py) -/

/-- extract_and_load_prices (lines 45-79): load the extracted frame to
STOCK_PRICES_DAILY with `create_table=False`; when the frame is
non-empty, advance the stock_prices watermark to
`str(df["date"].max())` computed on the un-normalized frame of the
frame.  A missing date column would raise a KeyError. -/
def extract_and_load_prices (st : LoaderState) (df : DataFrame) (outcome : WriteOutcome) :
    Except String LoadResult × LoaderState :=
  match load_to_raw st df "STOCK_PRICES_DAILY" "stock_prices" false outcome with
  | (.error m, st1) => (.error m, st1)
  | (.ok res, st1) =>
      if df.isEmpty then (.ok res, st1)
      else
        match df.colMax "date" with
        | some c => (.ok res, update_watermark st1 "stock_prices" c.toStr)
        | none => (.error "KeyError: date", st1)

/-- extract_and_load_company_info (lines 82-109): load the extracted
frame to COMPANY_INFO; no watermark is touched on any path. -/
def extract_and_load_company_info (st : LoaderState) (df : DataFrame)
    (outcome : WriteOutcome) : Except String LoadResult × LoaderState :=
  load_to_raw st df "COMPANY_INFO" "company_info" false outcome

/-- extract_and_load_benchmarks (lines 112-144): load to
BENCHMARK_SERIES_DAILY; when non-empty, advance the benchmark_series
watermark to `str(df["date"].max())`. -/
def extract_and_load_benchmarks (st : LoaderState) (df : DataFrame) (outcome : WriteOutcome) :
    Except String LoadResult × LoaderState :=
  match load_to_raw st df "BENCHMARK_SERIES_DAILY" "benchmark_series" false outcome with
  | (.error m, st1) => (.error m, st1)
  | (.ok res, st1) =>
      if df.isEmpty then (.ok res, st1)
      else
        match df.colMax "date" with
        | some c => (.ok res, update_watermark st1 "benchmark_series" c.toStr)
        | none => (.error "KeyError: date", st1)

/-! ## The data-quality gate (verify_data_quality, lines 147-195) -/

/-- The aggregates the gate queries: COUNT over the three monitored
collections, MAX(date) over the primary series collection
(COBRA.STOCK_PRICES_DAILY, as a day number, None when the query result
set is empty), and the current date. -/
structure GateView where
  price_count : Nat
  company_count : Nat
  benchmark_count : Nat
  price_max_date : Option Int
  today : Int
deriving DecidableEq, Repr

/-- verify_data_quality: check the three row counts in order and raise
(ValueError) at the first zero; then compare MAX(date) against today
and, when the data is more than 7 days old, record a non-fatal warning;
return the per-collection counts. -/
def verify_data_quality (v : GateView) :
    Except String (List (String × Nat) × List String) :=
  if v.price_count == 0 then .error "No data found in COBRA.STOCK_PRICES_DAILY"
  else if v.company_count == 0 then .error "No data found in COBRA.COMPANY_INFO"
  else if v.benchmark_count == 0 then .error "No data found in COBRA.BENCHMARK_SERIES_DAILY"
  else
    let results := [("stock prices", v.price_count), ("company info", v.company_count),
                    ("benchmark series", v.benchmark_count)]
    let warnings :=
      match v.price_max_date with
      | some md =>
          if 7 < v.today - md then
            ["Data is " ++ toString (v.today - md) ++ " days old - may need refresh"]
          else []
      | none => []
    .ok (results, warnings)

/-! ## The Airflow DAG (lines 199-249) -/

/-- The per-task retry configuration Airflow reads from
`default_args`: the DAG passes `default_args` to every operator it
contains, and no operator in this DAG overrides them. -/
structure AirflowTask where
  task_id : String
  retries : Nat
  retry_delay_minutes : Nat
deriving DecidableEq, Repr

/-- `default_args` (lines 26-33): retries 2, retry_delay 5 minutes. -/
def default_args_retries : Nat := 2

def default_args_retry_delay_minutes : Nat := 5

/-- Every task declared in the `with DAG(...)` block, each picking up
the DAG-level `default_args`. -/
def financeTasks : List AirflowTask :=
  [⟨"start", default_args_retries, default_args_retry_delay_minutes⟩,
   ⟨"extract_yahoo_prices", default_args_retries, default_args_retry_delay_minutes⟩,
   ⟨"extract_yahoo_company_info", default_args_retries, default_args_retry_delay_minutes⟩,
   ⟨"extract_yahoo_benchmark_series", default_args_retries, default_args_retry_delay_minutes⟩,
   ⟨"verify_data_quality", default_args_retries, default_args_retry_delay_minutes⟩,
   ⟨"transform_dbt", default_args_retries, default_args_retry_delay_minutes⟩,
   ⟨"end", default_args_retries, default_args_retry_delay_minutes⟩]

/-- The retry count configured for a task id. -/
def taskRetries (task_id : String) : Option Nat :=
  (financeTasks.find? (fun t => t.task_id == task_id)).map AirflowTask.retries

/-- The dependency wiring of line 249, in topological order, each task
with its upstream list:
start, then the three extracts fanning out from start, then
verify_data_quality fanning in from all three, then transform_dbt,
then end. -/
def financeNodes : List (String × List String) :=
  [("start", []),
   ("extract_yahoo_prices", ["start"]),
   ("extract_yahoo_company_info", ["start"]),
   ("extract_yahoo_benchmark_series", ["start"]),
   ("verify_data_quality",
     ["extract_yahoo_prices", "extract_yahoo_company_info", "extract_yahoo_benchmark_series"]),
   ("transform_dbt", ["verify_data_quality"]),
   ("end", ["transform_dbt"])]

/-- Final (task, started, succeeded) status recorded for `t`. -/
def succeededIn (acc : List (String × Bool × Bool)) (t : String) : Bool :=
  match acc.find? (fun p => p.1 == t) with
  | some p => p.2.2
  | none => false

def startedIn (acc : List (String × Bool × Bool)) (t : String) : Bool :=
  match acc.find? (fun p => p.1 == t) with
  | some p => p.2.1
  | none => false

/-- Airflow scheduling with the default all_success trigger rule: a
task starts iff every upstream task succeeded; it succeeds iff it
starts and its own execution (the `outcome` oracle, covering the task
callable together with its retries) succeeds.  A task with a failed or
never-started upstream never starts (upstream_failed). -/
def evalDagAux (outcome : String → Bool) :
    List (String × Bool × Bool) → List (String × List String) → List (String × Bool × Bool)
  | acc, [] => acc
  | acc, (t, ups) :: rest =>
      let started := ups.all (succeededIn acc)
      let succ := started && outcome t
      evalDagAux outcome (acc ++ [(t, started, succ)]) rest

def evalDag (outcome : String → Bool) (nodes : List (String × List String)) :
    List (String × Bool × Bool) :=
  evalDagAux outcome [] nodes

/-- Did task `t` of the finance DAG ever start, given the execution
outcomes of the tasks that ran? -/
def taskStarted (outcome : String → Bool) (t : String) : Bool :=
  startedIn (evalDag outcome financeNodes) t

def taskSucceeded (outcome : String → Bool) (t : String) : Bool :=
  succeededIn (evalDag outcome financeNodes) t

/-! ## Sample data used by witnesses and counterexamples -/

/-- A loader state with one existing empty RAW table "T" and no
metadata-operation failures. -/
def stA : LoaderState :=
  ⟨[("T", [])], [], [], 0, 0, false, false, false⟩

/-- A state whose warehouse holds the STOCK_PRICES_DAILY table. -/
def stSP : LoaderState :=
  ⟨[("STOCK_PRICES_DAILY", [])], [], [], 0, 0, false, false, false⟩

/-- A state whose warehouse holds the COMPANY_INFO table. -/
def stCI : LoaderState :=
  ⟨[("COMPANY_INFO", [])], [], [], 0, 0, false, false, false⟩

/-- A state whose warehouse holds both the STOCK_PRICES_DAILY and the
BENCHMARK_SERIES_DAILY tables, both empty. -/
def stBoth : LoaderState :=
  ⟨[("STOCK_PRICES_DAILY", []), ("BENCHMARK_SERIES_DAILY", [])],
   [], [], 0, 0, false, false, false⟩

/-- An empty price frame (columns but no rows). -/
def dfEmptySample : DataFrame := ⟨[⟨"date", Dtype.datetime⟩], []⟩

/-- A two-row price frame with a datetime date column. -/
def dfSample : DataFrame :=
  ⟨[⟨"date", Dtype.datetime⟩, ⟨"close", Dtype.num⟩],
   [[Cell.dt 100 5, Cell.n 10], [Cell.dt 101 7, Cell.n 11]]⟩

/-- The date-normalization relation between the original frame and the
frame handed to the warehouse: every column of the original that is
named like a date and typed datetime appears at the same position with
dtype date, and every cell of that column has its time-of-day
stripped. -/
def stripsDates (orig prep : DataFrame) : Prop :=
  ∀ (j : Nat) (c : ColMeta), orig.cols[j]? = some c →
    nameHasDate c.name = true → c.dtype = Dtype.datetime →
    prep.cols[j]? = some ⟨c.name, Dtype.date⟩ ∧
    ∀ (i : Nat) (r : List Cell), orig.rows[i]? = some r →
      ∃ r2, prep.rows[i]? = some r2 ∧ r2[j]? = (r[j]?).map stripCell

/-! ## Helper lemmas -/

theorem lookup_upsertA_self {α : Type} (l : List (String × α)) (k : String) (v : α) :
    List.lookup k (upsertA l k v) = some v := by
  induction l with
  | nil => simp [upsertA, List.lookup]
  | cons p rest ih =>
      rcases p with ⟨k1, v1⟩
      by_cases h : k1 = k
      · subst h
        simp [upsertA, List.lookup]
      · have h1 : (k1 == k) = false := by simp [h]
        have h2 : (k == k1) = false := by simp [Ne.symm h]
        simp [upsertA, h1, List.lookup, h2, ih]

theorem rows_length_normalize (df : DataFrame) :
    (normalizeDates df).rows.length = df.rows.length := by
  simp [normalizeDates]

theorem rows_length_stamp (df : DataFrame) (rid : String) :
    (stampRunId df rid).rows.length = df.rows.length := by
  unfold stampRunId
  cases df.cols.findIdx? (fun c => c.name == "source_run_id") <;> simp

/-- update_watermark never changes the failure flags. -/
theorem update_watermark_flags (st : LoaderState) (d v : String) :
    (update_watermark st d v).wmWriteFails = st.wmWriteFails ∧
    (update_watermark st d v).wmReadFails = st.wmReadFails := by
  unfold update_watermark
  split <;> simp

/-- The success path of load_to_raw, written out: fresh run id, state
counter bumped, append of the prepared rows to the existing table, one
completed ledger record. -/
theorem load_to_raw_ok_eq (st : LoaderState) (df : DataFrame) (tbl ds : String) (ct : Bool)
    (rows0 : List (List Cell)) (h : df.isEmpty = false)
    (ht : List.lookup tbl st.warehouse = some rows0) :
    load_to_raw st df tbl ds ct .ok =
      (.ok ⟨some (generate_run_id st.nextRunId),
            (stampRunId (normalizeDates df) (generate_run_id st.nextRunId)).rows.length,
            "completed", some 1⟩,
       log_ingest_run
         { st with nextRunId := st.nextRunId + 1,
                   warehouse := upsertA st.warehouse tbl
                     (rows0 ++ (stampRunId (normalizeDates df) (generate_run_id st.nextRunId)).rows) }
         (generate_run_id st.nextRunId) ds tbl
         (stampRunId (normalizeDates df) (generate_run_id st.nextRunId)).rows.length
         "completed" none) := by
  simp [load_to_raw, h, write_pandas, ht]

/-! ## Claim C1 -/

/-- Claim C1, counterexample to the claim as stated: loading an empty
batch returns the normal skipped result, but the Run Ledger receives no
record at all (the ledger stays empty), contradicting the claim that a
skipped Run Record is written. -/
theorem load_empty_counterexample :
    load_to_raw stA dfEmptySample "T" "ds" false .ok =
      (.ok ⟨none, 0, "skipped", none⟩, stA) ∧
    (load_to_raw stA dfEmptySample "T" "ds" false .ok).2.ledger = [] := by
  constructor <;> rfl

/-- Claim C1 (amended): for every empty batch, load performs no
warehouse write, leaves the watermark untouched and returns the normal
skipped result with rows_loaded 0 to the caller, but writes no Run
Record to the Run Ledger: the entire loader state is returned
unchanged. -/
theorem load_empty_skipped_no_side_effects (st : LoaderState) (df : DataFrame)
    (tbl ds : String) (ct : Bool) (oc : WriteOutcome) (h : df.isEmpty = true) :
    load_to_raw st df tbl ds ct oc = (.ok ⟨none, 0, "skipped", none⟩, st) := by
  simp [load_to_raw, h]

theorem load_empty_skipped_no_side_effects_witness :
    DataFrame.isEmpty dfEmptySample = true ∧
    load_to_raw stA dfEmptySample "CI_TABLE" "ds2" true (.failRaise "x") =
      (.ok ⟨none, 0, "skipped", none⟩, stA) :=
  ⟨rfl, load_empty_skipped_no_side_effects stA dfEmptySample "CI_TABLE" "ds2" true
    (.failRaise "x") rfl⟩

/-! ## Claim C2 -/

/-- Claim C2, counterexample: advancing the stock_prices watermark to
"2024-01-10" and then to the earlier "2024-01-05" leaves the stored
value at "2024-01-05", not at the running maximum "2024-01-10" of the
two advanced dates: the MERGE is an unconditional last-write-wins
upsert and the stored watermark does regress. -/
theorem watermark_regression_counterexample :
    get_watermark
      (update_watermark (update_watermark stA "stock_prices" "2024-01-10")
        "stock_prices" "2024-01-05") "stock_prices" = some "2024-01-05" ∧
    "2024-01-05" ≠ "2024-01-10" := by
  exact ⟨rfl, by decide⟩

/-- Claim C2 (amended): the stored watermark_value equals the value
carried by the most recent advance for that dataset (last-write-wins
upsert keyed by dataset_name); it equals the running maximum only when
the advanced values arrive in nondecreasing order, and regresses when a
later call carries an earlier date. -/
theorem watermark_last_write_wins (st : LoaderState) (d : String) (vs : List String)
    (v : String) (hw : st.wmWriteFails = false) (hr : st.wmReadFails = false) :
    get_watermark ((vs ++ [v]).foldl (fun s x => update_watermark s d x) st) d = some v := by
  induction vs generalizing st with
  | nil =>
      simp [update_watermark, hw, get_watermark, hr, lookup_upsertA_self]
  | cons x rest ih =>
      have hw1 : (update_watermark st d x).wmWriteFails = false :=
        ((update_watermark_flags st d x).1).trans hw
      have hr1 : (update_watermark st d x).wmReadFails = false :=
        ((update_watermark_flags st d x).2).trans hr
      simpa using ih (update_watermark st d x) hw1 hr1

theorem watermark_last_write_wins_witness :
    stA.wmWriteFails = false ∧ stA.wmReadFails = false ∧
    get_watermark
      ((["2024-01-03", "2024-01-09"] ++ ["2024-01-07"]).foldl
        (fun s x => update_watermark s "benchmark_series" x) stA) "benchmark_series" =
      some "2024-01-07" :=
  ⟨rfl, rfl,
   watermark_last_write_wins stA "benchmark_series" ["2024-01-03", "2024-01-09"]
     "2024-01-07" rfl rfl⟩

/-! ## Claim C9 -/

/-- Claim C9: reading the watermark returns the stored value when a row
for the dataset exists, None when none exists, and None (rather than an
exception) whenever the underlying query fails. -/
theorem get_watermark_total_read (st : LoaderState) (d : String) :
    (st.wmReadFails = false →
      get_watermark st d = List.lookup d st.watermarks) ∧
    (st.wmReadFails = true → get_watermark st d = none) ∧
    (List.lookup d st.watermarks = none → get_watermark st d = none) := by
  refine ⟨fun h => ?_, fun h => ?_, fun h => ?_⟩
  · simp [get_watermark, h]
  · simp [get_watermark, h]
  · unfold get_watermark
    split <;> simp [h]

theorem get_watermark_total_read_witness :
    (stA.wmReadFails = false ∧ get_watermark stA "ds" = List.lookup "ds" stA.watermarks) ∧
    (List.lookup "nope" stA.watermarks = none ∧ get_watermark stA "nope" = none) :=
  ⟨⟨rfl, (get_watermark_total_read stA "ds").1 rfl⟩,
   ⟨rfl, (get_watermark_total_read stA "nope").2.2 rfl⟩⟩

/-! ## Claim C4 -/

/-- Claim C4: for every non-empty batch, a load whose warehouse write
raises (or reports success=False, which the code turns into a raised
"Load failed" exception) writes exactly one Run Record with status
"failed" carrying the error text, and then re-raises the original
error; when the ledger INSERT itself fails the failure is swallowed
(state unchanged) and the original error still propagates unmasked.
The watermark and the warehouse are untouched on every failure path. -/
theorem load_failure_one_failed_record (st : LoaderState) (df : DataFrame)
    (tbl ds : String) (ct : Bool) (h : df.isEmpty = false) :
    (∀ msg : String,
      (load_to_raw st df tbl ds ct (.failRaise msg)).1 = .error msg ∧
      (load_to_raw st df tbl ds ct (.failRaise msg)).2.ledger =
        (if st.ledgerFails then st.ledger
         else st.ledger ++
           [⟨generate_run_id st.nextRunId, ds, tbl, st.clock, 0, "failed", some msg⟩]) ∧
      (load_to_raw st df tbl ds ct (.failRaise msg)).2.watermarks = st.watermarks ∧
      (load_to_raw st df tbl ds ct (.failRaise msg)).2.warehouse = st.warehouse) ∧
    (∀ output : String,
      (load_to_raw st df tbl ds ct (.failFalse output)).1 =
        .error ("Load failed: " ++ output) ∧
      (load_to_raw st df tbl ds ct (.failFalse output)).2.ledger =
        (if st.ledgerFails then st.ledger
         else st.ledger ++
           [⟨generate_run_id st.nextRunId, ds, tbl, st.clock, 0, "failed",
             some ("Load failed: " ++ output)⟩]) ∧
      (load_to_raw st df tbl ds ct (.failFalse output)).2.watermarks = st.watermarks ∧
      (load_to_raw st df tbl ds ct (.failFalse output)).2.warehouse = st.warehouse) := by
  cases hl : st.ledgerFails <;>
    simp [load_to_raw, h, write_pandas, log_ingest_run, hl]

theorem load_failure_one_failed_record_witness :
    DataFrame.isEmpty dfSample = false ∧
    (load_to_raw stA dfSample "T" "ds" false (.failRaise "connection reset")).1 =
      .error "connection reset" ∧
    (load_to_raw stA dfSample "T" "ds" false (.failRaise "connection reset")).2.ledger =
      (if stA.ledgerFails then stA.ledger
       else stA.ledger ++
         [⟨generate_run_id stA.nextRunId, "ds", "T", stA.clock, 0, "failed",
           some "connection reset"⟩]) :=
  ⟨rfl,
   ((load_failure_one_failed_record stA dfSample "T" "ds" false rfl).1 "connection reset").1,
   ((load_failure_one_failed_record stA dfSample "T" "ds" false rfl).1
     "connection reset").2.1⟩

/-! ## Claim C3 -/

/-- Claim C3, counterexample to the claim as stated: the company-info
task performs a completed non-empty load (one completed Run Record with
rows_loaded 2) yet never touches the watermark store, so the stored
watermark for dataset company_info is unset rather than the maximum
date of the batch: only the prices and benchmarks callers advance a
watermark. -/
theorem company_info_no_watermark_counterexample :
    (extract_and_load_company_info stCI dfSample .ok).1 =
      .ok ⟨some "run_0", 2, "completed", some 1⟩ ∧
    (extract_and_load_company_info stCI dfSample .ok).2.ledger =
      [⟨"run_0", "company_info", "COMPANY_INFO", 0, 2, "completed", none⟩] ∧
    get_watermark (extract_and_load_company_info stCI dfSample .ok).2 "company_info" =
      none ∧
    dfSample.colMax "date" = some (Cell.dt 101 7) := by
  refine ⟨rfl, rfl, rfl, rfl⟩

/-- Claim C3 (amended): for every non-empty batch, a completed load
writes exactly one new Run Record with status "completed" and
rows_loaded equal to the batch length; the stored watermark then equals
(the string form of) the maximum date of the batch for the prices and
benchmarks tasks, whose callers advance it after the load, while the
company-info task leaves its watermark untouched.  Stated for both the
prices task and the benchmarks task. -/
theorem prices_benchmarks_completed_record_and_watermark (st : LoaderState)
    (df : DataFrame) (rows0 : List (List Cell)) (c : Cell) (h : df.isEmpty = false)
    (hm : df.colMax "date" = some c) (hl : st.ledgerFails = false)
    (hw : st.wmWriteFails = false) (hr : st.wmReadFails = false) :
    (List.lookup "STOCK_PRICES_DAILY" st.warehouse = some rows0 →
      (extract_and_load_prices st df .ok).1 =
        .ok ⟨some (generate_run_id st.nextRunId), df.rows.length, "completed", some 1⟩ ∧
      (extract_and_load_prices st df .ok).2.ledger =
        st.ledger ++
          [⟨generate_run_id st.nextRunId, "stock_prices", "STOCK_PRICES_DAILY", st.clock,
            df.rows.length, "completed", none⟩] ∧
      get_watermark (extract_and_load_prices st df .ok).2 "stock_prices" =
        some c.toStr) ∧
    (List.lookup "BENCHMARK_SERIES_DAILY" st.warehouse = some rows0 →
      (extract_and_load_benchmarks st df .ok).1 =
        .ok ⟨some (generate_run_id st.nextRunId), df.rows.length, "completed", some 1⟩ ∧
      (extract_and_load_benchmarks st df .ok).2.ledger =
        st.ledger ++
          [⟨generate_run_id st.nextRunId, "benchmark_series", "BENCHMARK_SERIES_DAILY",
            st.clock, df.rows.length, "completed", none⟩] ∧
      get_watermark (extract_and_load_benchmarks st df .ok).2 "benchmark_series" =
        some c.toStr) := by
  constructor
  · intro ht
    unfold extract_and_load_prices
    rw [load_to_raw_ok_eq st df "STOCK_PRICES_DAILY" "stock_prices" false rows0 h ht]
    simp [h, hm, log_ingest_run, hl, update_watermark, hw, get_watermark, hr,
      lookup_upsertA_self, rows_length_stamp, rows_length_normalize]
  · intro ht
    unfold extract_and_load_benchmarks
    rw [load_to_raw_ok_eq st df "BENCHMARK_SERIES_DAILY" "benchmark_series" false rows0 h ht]
    simp [h, hm, log_ingest_run, hl, update_watermark, hw, get_watermark, hr,
      lookup_upsertA_self, rows_length_stamp, rows_length_normalize]

theorem prices_benchmarks_completed_record_and_watermark_witness :
    DataFrame.isEmpty dfSample = false ∧
    List.lookup "STOCK_PRICES_DAILY" stBoth.warehouse = some [] ∧
    List.lookup "BENCHMARK_SERIES_DAILY" stBoth.warehouse = some [] ∧
    dfSample.colMax "date" = some (Cell.dt 101 7) ∧
    (extract_and_load_prices stBoth dfSample .ok).1 =
      .ok ⟨some (generate_run_id stBoth.nextRunId), dfSample.rows.length,
        "completed", some 1⟩ ∧
    get_watermark (extract_and_load_prices stBoth dfSample .ok).2 "stock_prices" =
      some (Cell.dt 101 7).toStr ∧
    get_watermark (extract_and_load_benchmarks stBoth dfSample .ok).2 "benchmark_series" =
      some (Cell.dt 101 7).toStr :=
  ⟨rfl, rfl, rfl, rfl,
   ((prices_benchmarks_completed_record_and_watermark stBoth dfSample [] (Cell.dt 101 7)
     rfl rfl rfl rfl rfl).1 rfl).1,
   ((prices_benchmarks_completed_record_and_watermark stBoth dfSample [] (Cell.dt 101 7)
     rfl rfl rfl rfl rfl).1 rfl).2.2,
   ((prices_benchmarks_completed_record_and_watermark stBoth dfSample [] (Cell.dt 101 7)
     rfl rfl rfl rfl rfl).2 rfl).2.2⟩

/-! ## Claim C6 -/

/-- Claim C6, counterexample to the claim as stated: the DAG-level
default_args apply to every operator in the DAG, so the quality-gate
and transform tasks are also configured with 2 automatic retries, not
zero. -/
theorem gate_transform_retried_counterexample :
    taskRetries "verify_data_quality" = some 2 ∧
    taskRetries "transform_dbt" = some 2 ∧
    (2 : Nat) ≠ 0 := by
  refine ⟨rfl, rfl, by decide⟩

/-- Claim C6 (amended): every task of the DAG, the three extraction
nodes as well as the quality-gate and transform nodes, is retried up to
2 times with a 5-minute delay on failure, because default_args is
applied to every operator and none overrides it. -/
theorem all_tasks_retry_config :
    financeTasks.all (fun t => t.retries == 2 && t.retry_delay_minutes == 5) = true ∧
    taskRetries "extract_yahoo_prices" = some 2 ∧
    taskRetries "extract_yahoo_company_info" = some 2 ∧
    taskRetries "extract_yahoo_benchmark_series" = some 2 ∧
    taskRetries "verify_data_quality" = some 2 ∧
    taskRetries "transform_dbt" = some 2 := by
  refine ⟨rfl, rfl, rfl, rfl, rfl, rfl⟩

/-! ## Claim C7 -/

/-- Claim C7: in every run of the task graph, the quality gate starts
exactly when all three extraction tasks (and transitively the start
marker) succeeded, the transform task starts exactly when the gate
succeeded, the end marker exactly when the transform succeeded; and a
failure in any extraction branch prevents the gate, the transform and
the end marker from ever starting. -/
theorem dag_dependency_structure (o : String → Bool) :
    (taskStarted o "verify_data_quality" =
      (taskSucceeded o "extract_yahoo_prices" && taskSucceeded o "extract_yahoo_company_info" &&
       taskSucceeded o "extract_yahoo_benchmark_series")) ∧
    (taskStarted o "transform_dbt" = taskSucceeded o "verify_data_quality") ∧
    (taskStarted o "end" = taskSucceeded o "transform_dbt") ∧
    ((o "extract_yahoo_prices" = false ∨ o "extract_yahoo_company_info" = false ∨
      o "extract_yahoo_benchmark_series" = false) →
      taskStarted o "verify_data_quality" = false ∧
      taskStarted o "transform_dbt" = false ∧
      taskStarted o "end" = false) := by
  cases h1 : o "start" <;> cases h2 : o "extract_yahoo_prices" <;>
    cases h3 : o "extract_yahoo_company_info" <;>
    cases h4 : o "extract_yahoo_benchmark_series" <;>
    cases h5 : o "verify_data_quality" <;> cases h6 : o "transform_dbt" <;>
    simp [taskStarted, taskSucceeded, evalDag, evalDagAux, financeNodes, startedIn,
      succeededIn, List.find?, List.all, h1, h2, h3, h4, h5, h6]

theorem dag_dependency_structure_witness :
    taskStarted (fun t => !(t == "extract_yahoo_prices")) "verify_data_quality" = false ∧
    taskStarted (fun t => !(t == "extract_yahoo_prices")) "transform_dbt" = false ∧
    taskStarted (fun t => !(t == "extract_yahoo_prices")) "end" = false :=
  (dag_dependency_structure (fun t => !(t == "extract_yahoo_prices"))).2.2.2
    (Or.inl (by decide))

/-! ## Claim C5 -/

/-- Claim C5: the quality gate fails (halting everything downstream of
it in the graph) exactly whenever some monitored collection has zero
rows; when all three counts are positive the gate passes, and when the
primary series data is additionally more than 7 days old it returns
normally with only a non-fatal staleness warning; and a gate task that
fails prevents the transform task (and the end marker) from starting. -/
theorem quality_gate_fatal_on_empty_warn_on_stale (v : GateView) :
    ((v.price_count = 0 ∨ v.company_count = 0 ∨ v.benchmark_count = 0) →
      (verify_data_quality v).isOk = false) ∧
    (v.price_count ≠ 0 → v.company_count ≠ 0 → v.benchmark_count ≠ 0 →
      (verify_data_quality v).isOk = true) ∧
    (∀ md : Int, v.price_count ≠ 0 → v.company_count ≠ 0 → v.benchmark_count ≠ 0 →
      v.price_max_date = some md → 7 < v.today - md →
      verify_data_quality v =
        .ok ([("stock prices", v.price_count), ("company info", v.company_count),
              ("benchmark series", v.benchmark_count)],
          ["Data is " ++ toString (v.today - md) ++ " days old - may need refresh"])) ∧
    (∀ o : String → Bool, o "verify_data_quality" = false →
      taskStarted o "transform_dbt" = false ∧ taskStarted o "end" = false) := by
  refine ⟨fun h => ?_, fun h1 h2 h3 => ?_, fun md h1 h2 h3 hmd hstale => ?_,
    fun o ho => ?_⟩
  · rcases h with h | h | h
    · simp [verify_data_quality, h, Except.isOk, Except.toBool]
    · by_cases hp : v.price_count = 0 <;>
        simp [verify_data_quality, h, hp, Except.isOk, Except.toBool]
    · by_cases hp : v.price_count = 0 <;> by_cases hc : v.company_count = 0 <;>
        simp [verify_data_quality, h, hp, hc, Except.isOk, Except.toBool]
  · simp [verify_data_quality, h1, h2, h3, Except.isOk, Except.toBool]
  · simp [verify_data_quality, h1, h2, h3, hmd, hstale]
  · cases h1 : o "start" <;> cases h2 : o "extract_yahoo_prices" <;>
      cases h3 : o "extract_yahoo_company_info" <;>
      cases h4 : o "extract_yahoo_benchmark_series" <;>
      simp [taskStarted, evalDag, evalDagAux, financeNodes, startedIn,
        succeededIn, List.find?, List.all, h1, h2, h3, h4, ho]

theorem quality_gate_fatal_on_empty_warn_on_stale_witness :
    (verify_data_quality ⟨120, 10, 0, some 3, 5⟩).isOk = false ∧
    (verify_data_quality ⟨120, 10, 60, some 3, 20⟩).isOk = true ∧
    verify_data_quality ⟨120, 10, 60, some 3, 20⟩ =
      .ok ([("stock prices", 120), ("company info", 10), ("benchmark series", 60)],
        ["Data is " ++ toString ((20 : Int) - 3) ++ " days old - may need refresh"]) :=
  ⟨(quality_gate_fatal_on_empty_warn_on_stale ⟨120, 10, 0, some 3, 5⟩).1
     (Or.inr (Or.inr rfl)),
   (quality_gate_fatal_on_empty_warn_on_stale ⟨120, 10, 60, some 3, 20⟩).2.1
     (by decide) (by decide) (by decide),
   (quality_gate_fatal_on_empty_warn_on_stale ⟨120, 10, 60, some 3, 20⟩).2.2.1 3
     (by decide) (by decide) (by decide) rfl (by decide)⟩

/-! ## Claim C8 -/

theorem stampRunId_append (df : DataFrame) (rid : String)
    (h : df.cols.all (fun c => !(c.name == "source_run_id")) = true) :
    stampRunId df rid =
      ⟨df.cols ++ [⟨"source_run_id", Dtype.str⟩],
       df.rows.map (fun r => r ++ [Cell.s rid])⟩ := by
  have hf : df.cols.findIdx? (fun c => c.name == "source_run_id") = none := by
    rw [List.findIdx?_eq_none_iff]
    intro x hx
    simpa using List.all_eq_true.mp h x hx
  simp [stampRunId, hf]

theorem normalize_no_src_col (df : DataFrame)
    (h : df.cols.all (fun c => !(c.name == "source_run_id")) = true) :
    (normalizeDates df).cols.all (fun c => !(c.name == "source_run_id")) = true := by
  rw [List.all_eq_true] at h ⊢
  intro x hx
  simp only [normalizeDates, List.mem_map] at hx
  obtain ⟨c, hc, rfl⟩ := hx
  have hcx := h c hc
  split <;> simpa using hcx

/-- Claim C8: for every non-empty batch loaded into an existing
collection, the loader draws one fresh run identifier (the generator
counter advances by exactly one), the frame actually written carries a
source_run_id column whose value on every row is that identifier, every
datetime-typed date-named column of the incoming batch reaches the
warehouse with dtype date and the time-of-day stripped from each cell,
and the warehouse write appends: the target collection afterwards holds
its previous rows unchanged, followed by the prepared batch rows. -/
theorem load_nonempty_prepares_and_appends (st : LoaderState) (df : DataFrame)
    (tbl ds : String) (ct : Bool) (rows0 : List (List Cell))
    (h : df.isEmpty = false) (ht : List.lookup tbl st.warehouse = some rows0)
    (hwf : df.wf = true)
    (hns : df.cols.all (fun c => !(c.name == "source_run_id")) = true) :
    (load_to_raw st df tbl ds ct .ok).1 =
      .ok ⟨some (generate_run_id st.nextRunId), df.rows.length, "completed", some 1⟩ ∧
    (load_to_raw st df tbl ds ct .ok).2.nextRunId = st.nextRunId + 1 ∧
    List.lookup tbl (load_to_raw st df tbl ds ct .ok).2.warehouse =
      some (rows0 ++ (stampRunId (normalizeDates df) (generate_run_id st.nextRunId)).rows) ∧
    (stampRunId (normalizeDates df) (generate_run_id st.nextRunId)).cols.getLast? =
      some ⟨"source_run_id", Dtype.str⟩ ∧
    (stampRunId (normalizeDates df) (generate_run_id st.nextRunId)).rows.all
      (fun r => r.getLast? == some (Cell.s (generate_run_id st.nextRunId))) = true ∧
    stripsDates df (stampRunId (normalizeDates df) (generate_run_id st.nextRunId)) := by
  have hstamp := stampRunId_append (normalizeDates df) (generate_run_id st.nextRunId)
    (normalize_no_src_col df hns)
  refine ⟨?_, ?_, ?_, ?_, ?_, ?_⟩
  · rw [load_to_raw_ok_eq st df tbl ds ct rows0 h ht]
    simp [rows_length_stamp, rows_length_normalize]
  · rw [load_to_raw_ok_eq st df tbl ds ct rows0 h ht]
    unfold log_ingest_run
    split <;> rfl
  · rw [load_to_raw_ok_eq st df tbl ds ct rows0 h ht]
    unfold log_ingest_run
    split <;> simp [lookup_upsertA_self]
  · rw [hstamp]
    simp [List.getLast?_concat]
  · rw [hstamp]
    simp [List.all_map, Function.comp, List.getLast?_concat]
  · intro j c hc hname hdt
    have hj : j < df.cols.length := (List.getElem?_eq_some.mp hc).1
    constructor
    · rw [hstamp]
      show ((normalizeDates df).cols ++ [(⟨"source_run_id", Dtype.str⟩ : ColMeta)])[j]? =
        some ⟨c.name, Dtype.date⟩
      rw [List.getElem?_append]
      have hlen : (normalizeDates df).cols.length = df.cols.length := by
        simp [normalizeDates]
      rw [if_pos (by rw [hlen]; exact hj)]
      simp only [normalizeDates, List.getElem?_map, hc, Option.map_some]
      simp [hname, hdt]
    · intro i r hr
      have hmem : r ∈ df.rows := List.getElem?_mem hr
      have hrwf := List.all_eq_true.mp hwf r hmem
      have hrlen : r.length = df.cols.length := by
        simp only [Bool.and_eq_true, beq_iff_eq] at hrwf
        exact hrwf.1
      have hjr : j < r.length := by rw [hrlen]; exact hj
      refine ⟨List.zipWith (fun cell fl => if fl then stripCell cell else cell) r
        (df.cols.map fun c2 => nameHasDate c2.name && c2.dtype == Dtype.datetime) ++
        [Cell.s (generate_run_id st.nextRunId)], ?_, ?_⟩
      · rw [hstamp]
        show ((normalizeDates df).rows.map
          (fun r2 => r2 ++ [Cell.s (generate_run_id st.nextRunId)]))[i]? = _
        simp only [normalizeDates, List.map_map, List.getElem?_map, hr, Option.map_some]
        rfl
      · have hzlen : (List.zipWith (fun cell fl => if fl then stripCell cell else cell) r
            (df.cols.map fun c2 => nameHasDate c2.name && c2.dtype == Dtype.datetime)).length
            = df.cols.length := by
          rw [List.length_zipWith, List.length_map, hrlen, Nat.min_self]
        rw [List.getElem?_append, if_pos (by rw [hzlen]; exact hj)]
        have hrj : r[j]? = some (r.get ⟨j, hjr⟩) := List.getElem?_eq_getElem hjr
        have hfj : (df.cols.map fun c2 =>
            nameHasDate c2.name && c2.dtype == Dtype.datetime)[j]? = some true := by
          simp only [List.getElem?_map, hc, Option.map_some]
          simp [hname, hdt]
        have hz : (List.zipWith (fun cell fl => if fl then stripCell cell else cell) r
            (df.cols.map fun c2 => nameHasDate c2.name && c2.dtype == Dtype.datetime))[j]? =
            some (stripCell (r.get ⟨j, hjr⟩)) :=
          List.getElem?_zipWith_eq_some.mpr ⟨r.get ⟨j, hjr⟩, true, hrj, hfj, rfl⟩
        rw [hz, hrj]
        rfl

theorem load_nonempty_prepares_and_appends_witness :
    DataFrame.isEmpty dfSample = false ∧
    List.lookup "T" stA.warehouse = some [] ∧
    DataFrame.wf dfSample = true ∧
    dfSample.cols.all (fun c => !(c.name == "source_run_id")) = true ∧
    (load_to_raw stA dfSample "T" "ds" false .ok).1 =
      .ok ⟨some (generate_run_id stA.nextRunId), dfSample.rows.length, "completed", some 1⟩ ∧
    List.lookup "T" (load_to_raw stA dfSample "T" "ds" false .ok).2.warehouse =
      some ([] ++ (stampRunId (normalizeDates dfSample)
        (generate_run_id stA.nextRunId)).rows) ∧
    stripsDates dfSample
      (stampRunId (normalizeDates dfSample) (generate_run_id stA.nextRunId)) :=
  ⟨rfl, rfl, rfl, rfl,
   (load_nonempty_prepares_and_appends stA dfSample "T" "ds" false [] rfl rfl rfl rfl).1,
   (load_nonempty_prepares_and_appends stA dfSample "T" "ds" false [] rfl rfl rfl rfl).2.2.1,
   (load_nonempty_prepares_and_appends stA dfSample "T" "ds" false [] rfl rfl rfl rfl).2.2.2.2.2⟩

/-! ## Claim C10 -/

theorem set_concat_length {α : Type} (l : List α) (x y : α) :
    (l ++ [x]).set l.length y = l ++ [y] := by
  induction l with
  | nil => rfl
  | cons a as ih => simp [List.set, ih]

theorem getD_concat_length {α : Type} (l : List α) (x d : α) :
    (l ++ [x]).getD l.length d = x := by
  simp [List.getD, List.getElem?_concat_length]

/-- The copy-then-mutate segment nets out to: one fresh frame appended
to the heap, holding the normalized and stamped copy; the local name
ends up bound to that fresh frame. -/
theorem load_prepare_heap_eq (heap : List DataFrame) (ref : Nat) (rid : String) :
    load_prepare_heap heap ref rid =
      (heap ++ [stampRunId (normalizeDates (heap.getD ref emptyDf)) rid], heap.length) := by
  simp only [load_prepare_heap, getD_concat_length, set_concat_length]

/-- The heap after a full load is either unchanged (empty batch) or the
old heap plus the one internal copy. -/
theorem load_to_raw_heap_heap_eq (st : LoaderState) (heap : List DataFrame) (ref : Nat)
    (tbl ds : String) (ct : Bool) (oc : WriteOutcome) :
    (load_to_raw_heap st heap ref tbl ds ct oc).2 =
      (if (heap.getD ref emptyDf).isEmpty then heap
       else heap ++ [stampRunId (normalizeDates (heap.getD ref emptyDf))
         (generate_run_id st.nextRunId)]) := by
  cases hE : (heap.getD ref emptyDf).isEmpty with
  | true => simp only [load_to_raw_heap, hE, reduceIte]
  | false =>
      simp only [load_to_raw_heap, hE, Bool.false_eq_true, reduceIte,
        load_prepare_heap_eq, getD_concat_length]
      rcases oc with _ | out | msg
      · rcases hl : List.lookup tbl st.warehouse with _ | rows
        · cases ct <;> simp [write_pandas, hl]
        · simp [write_pandas, hl]
      · simp [write_pandas]
      · simp [write_pandas]

/-- Claim C10: load never mutates the batch object of the caller (nor any
other frame the caller holds): the run-id stamping and the date
normalization happen on an internal copy, and after the call every
pre-existing heap slot, in particular the frame of the caller at `ref`,
holds exactly the columns and values it held before. -/
theorem load_heap_preserves_caller_frame (st : LoaderState) (heap : List DataFrame)
    (ref : Nat) (tbl ds : String) (ct : Bool) (oc : WriteOutcome) (i : Nat)
    (hi : i < heap.length) :
    ((load_to_raw_heap st heap ref tbl ds ct oc).2)[i]? = heap[i]? := by
  rw [load_to_raw_heap_heap_eq]
  split
  · rfl
  · rw [List.getElem?_append, if_pos hi]

theorem load_heap_preserves_caller_frame_witness :
    (0 : Nat) < [dfSample].length ∧
    ((load_to_raw_heap stA [dfSample] 0 "T" "ds" false .ok).2)[0]? = some dfSample :=
  ⟨by decide,
   (load_heap_preserves_caller_frame stA [dfSample] 0 "T" "ds" false .ok 0
     (by decide)).trans rfl⟩
